import Mathlib

/-!
Verification of the Akita stats-calculator functions (`src/main.js`).

JavaScript numbers are modelled by `Akita.JSNum`: a rational value or one of
the special values `Infinity`, `-Infinity`, `NaN`, with the IEEE special-value
rules for the arithmetic the source uses (`-0` never arises here because all
stored fields are plain values and every produced zero is `+0`).  Functions
that can return either a number or a string (the `toFixed` paths) return
`Akita.JSValue`.  The asynchronous fetches from the data provider
(`getOriginDataList`, `loadOriginData`) are modelled by passing the fetched
value as an explicit argument; `Array.prototype.sort`'s in-place mutation is
modelled by also returning the post-call contents of the fetched array.
-/

namespace Akita

/-- Model of a JavaScript number: a rational, `Infinity`, `-Infinity` or `NaN`. -/
inductive JSNum where
  | num (q : ℚ)
  | inf
  | ninf
  | nan
deriving DecidableEq

namespace JSNum

/-- JavaScript multiplication on numbers (`x * y`). -/
def mul : JSNum → JSNum → JSNum
  | nan, _ => nan
  | _, nan => nan
  | num a, num b => num (a * b)
  | num a, inf => if 0 < a then inf else if a < 0 then ninf else nan
  | num a, ninf => if 0 < a then ninf else if a < 0 then inf else nan
  | inf, num b => if 0 < b then inf else if b < 0 then ninf else nan
  | ninf, num b => if 0 < b then ninf else if b < 0 then inf else nan
  | inf, inf => inf
  | inf, ninf => ninf
  | ninf, inf => ninf
  | ninf, ninf => inf

/-- JavaScript division on numbers (`x / y`); division by `0` (that is, `+0`)
yields a signed infinity, and `0 / 0` yields `NaN`. -/
def div : JSNum → JSNum → JSNum
  | nan, _ => nan
  | _, nan => nan
  | num a, num b =>
      if b = 0 then (if 0 < a then inf else if a < 0 then ninf else nan)
      else num (a / b)
  | num _, inf => num 0
  | num _, ninf => num 0
  | inf, num b => if 0 ≤ b then inf else ninf
  | ninf, num b => if 0 ≤ b then ninf else inf
  | inf, _ => nan
  | ninf, _ => nan

/-- JavaScript subtraction on numbers (`x - y`). -/
def sub : JSNum → JSNum → JSNum
  | nan, _ => nan
  | _, nan => nan
  | num a, num b => num (a - b)
  | num _, inf => ninf
  | num _, ninf => inf
  | inf, num _ => inf
  | ninf, num _ => ninf
  | inf, inf => nan
  | inf, ninf => inf
  | ninf, inf => ninf
  | ninf, ninf => nan

/-- JavaScript `<=` comparison; any comparison involving `NaN` is false. -/
def le : JSNum → JSNum → Bool
  | nan, _ => false
  | _, nan => false
  | num a, num b => decide (a ≤ b)
  | num _, inf => true
  | num _, ninf => false
  | inf, num _ => false
  | inf, inf => true
  | inf, ninf => false
  | ninf, _ => true

/-- JavaScript `<` comparison; any comparison involving `NaN` is false. -/
def lt : JSNum → JSNum → Bool
  | nan, _ => false
  | _, nan => false
  | num a, num b => decide (a < b)
  | num _, inf => true
  | num _, ninf => false
  | inf, _ => false
  | ninf, num _ => true
  | ninf, inf => true
  | ninf, ninf => false

/-- JavaScript `isNaN` on a number. -/
def isNaN : JSNum → Bool
  | nan => true
  | _ => false

end JSNum

/-- One origin's visit record (`AkitaOriginVisitData`): stored fields are
plain finite numbers. -/
structure OriginVisitData where
  monetizedTimeSpent : ℚ
  numberOfVisits : ℚ
deriving DecidableEq

/-- One origin's record (`AkitaOriginData`). -/
structure OriginData where
  origin : String
  originVisitData : OriginVisitData
deriving DecidableEq

/-- The global aggregate record (`AkitaOriginStats`); `totalSentAssetsMap` is
an object (modelled as an association list) or `null`. -/
structure OriginStats where
  totalTimeSpent : ℚ
  totalMonetizedTimeSpent : ℚ
  totalVisits : ℚ
  totalSentAssetsMap : Option (List (String × ℚ))
deriving DecidableEq

/-- A value that is either a JavaScript number or a string: the return type of
the functions that mix a numeric default with a `toFixed` result. -/
inductive JSValue where
  | num (x : JSNum)
  | str (s : String)
deriving DecidableEq

/-- `unNaN` from the source: replace `NaN` by `0`, leave anything else. -/
def unNaN (number : JSNum) : JSNum :=
  if number.isNaN then JSNum.num 0 else number

/-- Model of `Number.parseFloat` applied to a number argument: JavaScript
coerces the number to its decimal string and parses it back, which is the
identity on every number (including the special values, whose strings
`Infinity`, `-Infinity` and `NaN` map back to themselves). -/
def parseFloatJS (x : JSNum) : JSNum := x

/-- Two base-10 digits with a leading zero, for the fractional part of
`toFixed(2)`. -/
def twoDigitString (m : ℕ) : String :=
  (if m < 10 then "0" else "") ++ toString m

/-- `toFixed(2)` for a non-negative rational: the integer `n` nearest to
`q * 100` (ties to the larger `n`, as in the ECMAScript algorithm), printed
with two fractional digits. -/
def fixedTwoNonneg (q : ℚ) : String :=
  (fun n => toString (n / 100) ++ "." ++ twoDigitString (n % 100))
    (Int.toNat (Int.floor (q * 100 + 1 / 2)))

/-- `Number.prototype.toFixed(2)`: sign is split off first, the special
values print as their names. -/
def jsToFixed2 : JSNum → String
  | JSNum.nan => "NaN"
  | JSNum.inf => "Infinity"
  | JSNum.ninf => "-Infinity"
  | JSNum.num q => if q < 0 then "-" ++ fixedTwoNonneg (-q) else fixedTwoNonneg q

/-- `toPercent` from the source: `unNaN((100 * number)).toFixed(2)`. -/
def toPercent (number : JSNum) : String :=
  jsToFixed2 (unNaN (JSNum.mul (JSNum.num 100) number))

/-- The comparator of `getTopOriginsByTimeSpent`:
`b.originVisitData.monetizedTimeSpent - a.originVisitData.monetizedTimeSpent`. -/
def timeSpentComparator (a b : OriginData) : JSNum :=
  JSNum.sub (JSNum.num b.originVisitData.monetizedTimeSpent)
    (JSNum.num a.originVisitData.monetizedTimeSpent)

/-- Constant from the source. -/
def NEEDS_LOVE_MAGIC_NUMBER_MARGIN : ℚ := 1 / 4

/-- Constant from the source. -/
def NEEDS_LOVE_MAGIC_NUMBER : ℚ := 1

/-- The "needs love ratio" of a record:
`monetizedTimeSpent / numberOfVisits` under JavaScript division. -/
def needsLoveRatioOf (a : OriginData) : JSNum :=
  JSNum.div (JSNum.num a.originVisitData.monetizedTimeSpent)
    (JSNum.num a.originVisitData.numberOfVisits)

/-- The quotient `needsLoveRatioA / needsLoveRatioB` computed by the
needs-love comparator. -/
def ratioComparison (a b : OriginData) : JSNum :=
  JSNum.div (needsLoveRatioOf a) (needsLoveRatioOf b)

/-- The comparator of `getTopOriginsThatNeedSomeLove`: inside the closeness
window `[MAGIC - MARGIN, MAGIC] = [0.75, 1]` it returns `1` when `a` has more
visits than `b` and `-1` otherwise; outside the window it returns
`needsLoveRatioA - needsLoveRatioB`. -/
def needsLoveComparator (a b : OriginData) : JSNum :=
  if (JSNum.le (JSNum.num (NEEDS_LOVE_MAGIC_NUMBER - NEEDS_LOVE_MAGIC_NUMBER_MARGIN))
        (ratioComparison a b)
      && JSNum.le (ratioComparison a b) (JSNum.num NEEDS_LOVE_MAGIC_NUMBER)) then
    if b.originVisitData.numberOfVisits < a.originVisitData.numberOfVisits then
      JSNum.num 1
    else
      JSNum.num (-1)
  else
    JSNum.sub (needsLoveRatioOf a) (needsLoveRatioOf b)

/-- ECMAScript `SortCompare` keeps `a` before `b` when the comparator value
is negative or zero; a `NaN` comparator value is treated as `+0`. -/
def sortKeep (c : JSNum) : Bool :=
  match c with
  | JSNum.num q => decide (q ≤ 0)
  | JSNum.inf => false
  | JSNum.ninf => true
  | JSNum.nan => true

/-- The ordering relation induced on records by a JavaScript comparator. -/
def jsSortRel (cmp : OriginData → OriginData → JSNum) (a b : OriginData) : Prop :=
  sortKeep (cmp a b) = true

instance (cmp : OriginData → OriginData → JSNum) : DecidableRel (jsSortRel cmp) :=
  fun a b => inferInstanceAs (Decidable (sortKeep (cmp a b) = true))

/-- `Array.prototype.sort(cmp)`, modelled as a stable sort with respect to
the comparator's sign. -/
def jsSort (cmp : OriginData → OriginData → JSNum) (l : List OriginData) : List OriginData :=
  l.insertionSort (jsSortRel cmp)

/-- `getTopOriginsByTimeSpent`, with the awaited `getOriginDataList()` result
passed as an argument (`none` models `null`).  The first component is the
returned value, the second is the post-call contents of the fetched array
(`sort` operates in place). -/
def getTopOriginsByTimeSpentRun (nTopOrigins : ℕ) (originDataList : Option (List OriginData)) :
    Option (List OriginData) × Option (List OriginData) :=
  match originDataList with
  | none => (none, none)
  | some l =>
    if 1 < l.length then
      (fun sorted => (some (sorted.take (min nTopOrigins l.length)), some sorted))
        (jsSort timeSpentComparator l)
    else
      (some l, some l)

/-- The value returned by `getTopOriginsByTimeSpent`. -/
def getTopOriginsByTimeSpent (nTopOrigins : ℕ) (originDataList : Option (List OriginData)) :
    Option (List OriginData) :=
  (getTopOriginsByTimeSpentRun nTopOrigins originDataList).1

/-- The contents of the data provider's array after `getTopOriginsByTimeSpent`. -/
def listAfterTimeSpentCall (nTopOrigins : ℕ) (originDataList : Option (List OriginData)) :
    Option (List OriginData) :=
  (getTopOriginsByTimeSpentRun nTopOrigins originDataList).2

/-- `getTopOriginsThatNeedSomeLove`, with the awaited list passed as an
argument; components as in `getTopOriginsByTimeSpentRun`. -/
def getTopOriginsThatNeedSomeLoveRun (nTopOrigins : ℕ)
    (originDataList : Option (List OriginData)) :
    Option (List OriginData) × Option (List OriginData) :=
  match originDataList with
  | none => (none, none)
  | some l =>
    if 1 < l.length then
      (fun sorted => (some (sorted.take (min nTopOrigins l.length)), some sorted))
        (jsSort needsLoveComparator l)
    else
      (some l, some l)

/-- The value returned by `getTopOriginsThatNeedSomeLove`. -/
def getTopOriginsThatNeedSomeLove (nTopOrigins : ℕ)
    (originDataList : Option (List OriginData)) : Option (List OriginData) :=
  (getTopOriginsThatNeedSomeLoveRun nTopOrigins originDataList).1

/-- The contents of the data provider's array after `getTopOriginsThatNeedSomeLove`. -/
def listAfterNeedsLoveCall (nTopOrigins : ℕ) (originDataList : Option (List OriginData)) :
    Option (List OriginData) :=
  (getTopOriginsThatNeedSomeLoveRun nTopOrigins originDataList).2

/-- The result of `hasUsedWebMonetizationProvider`: the `&&` chain returns the
first falsy operand itself, so a missing record or map yields that `null`
rather than a boolean. -/
inductive JSBoolish where
  | jsNull
  | jsBool (b : Bool)
deriving DecidableEq

/-- `hasUsedWebMonetizationProvider(originStats)`:
`originStats && originStats.totalSentAssetsMap && (Object.keys(...).length !== 0)`.
A present map object (even empty) is truthy, so the chain then produces the
boolean `length !== 0`. -/
def hasUsedWebMonetizationProvider (originStats : Option OriginStats) : JSBoolish :=
  match originStats with
  | none => JSBoolish.jsNull
  | some s =>
    match s.totalSentAssetsMap with
    | none => JSBoolish.jsNull
    | some m => JSBoolish.jsBool (decide (m.length ≠ 0))

/-- `STREAM_RATE_PER_MILLISECOND` from the source: `0.0000001`. -/
def STREAM_RATE_PER_MILLISECOND : ℚ := 1 / 10000000

/-- `getEstimatedPaymentForOriginUSD`, with the awaited `loadOriginData(origin)`
result passed as an argument.  When data is missing, the initial numeric `0`
is returned; otherwise the `toFixed(2)` string. -/
def getEstimatedPaymentForOriginUSD (originData : Option OriginData) : JSValue :=
  match originData with
  | none => JSValue.num (JSNum.num 0)
  | some d =>
    JSValue.str (jsToFixed2 (unNaN (parseFloatJS
      (JSNum.mul (JSNum.num d.originVisitData.monetizedTimeSpent)
        (JSNum.num STREAM_RATE_PER_MILLISECOND)))))

/-- `getEstimatedPaymentForTimeInUSD(timeSpent)`:
`Number.parseFloat(timeSpent * STREAM_RATE_PER_MILLISECOND).toFixed(2)`,
with no `unNaN` guard. -/
def getEstimatedPaymentForTimeInUSD (timeSpent : JSNum) : String :=
  jsToFixed2 (parseFloatJS (JSNum.mul timeSpent (JSNum.num STREAM_RATE_PER_MILLISECOND)))

/-- `getPercentTimeSpentAtOriginOutOfTotal(originData, originStats)`: numeric
`0` when either input is missing, otherwise
`toPercent(monetizedTimeSpent / totalTimeSpent)` (no zero-denominator guard). -/
def getPercentTimeSpentAtOriginOutOfTotal (originData : Option OriginData)
    (originStats : Option OriginStats) : JSValue :=
  match originData, originStats with
  | some d, some s =>
    JSValue.str (toPercent (JSNum.div (JSNum.num d.originVisitData.monetizedTimeSpent)
      (JSNum.num s.totalTimeSpent)))
  | _, _ => JSValue.num (JSNum.num 0)

/-- `getPercentVisitsToOriginOutOfTotal(originData, originStats)`: numeric `0`
when either input is missing or `totalVisits === 0`. -/
def getPercentVisitsToOriginOutOfTotal (originData : Option OriginData)
    (originStats : Option OriginStats) : JSValue :=
  match originData, originStats with
  | some d, some s =>
    if s.totalVisits = 0 then JSValue.num (JSNum.num 0)
    else
      JSValue.str (toPercent (JSNum.div (JSNum.num d.originVisitData.numberOfVisits)
        (JSNum.num s.totalVisits)))
  | _, _ => JSValue.num (JSNum.num 0)

/-- `getMonetizedTimeSpentPercent(originStats)`: numeric `0` when the record
is missing or `totalTimeSpent === 0`. -/
def getMonetizedTimeSpentPercent (originStats : Option OriginStats) : JSValue :=
  match originStats with
  | none => JSValue.num (JSNum.num 0)
  | some s =>
    if s.totalTimeSpent = 0 then JSValue.num (JSNum.num 0)
    else
      JSValue.str (toPercent (JSNum.div (JSNum.num s.totalMonetizedTimeSpent)
        (JSNum.num s.totalTimeSpent)))

/-- Whether a string is a plain decimal numeral with exactly two fractional
digits (an optional leading minus sign, at least one integer digit, a dot,
two digits). -/
def isTwoDecimalNumericString (s : String) : Bool :=
  (fun cs =>
    match cs.reverse with
    | c2 :: c1 :: p :: rest =>
      c2.isDigit && c1.isDigit && decide (p = '.') && !rest.isEmpty && rest.all Char.isDigit
    | _ => false)
  (match s.data with
   | '-' :: rest => rest
   | cs => cs)

/-- Spec example record A: 100 ms over 10 visits. -/
def odA : OriginData := ⟨"a.example", ⟨100, 10⟩⟩

/-- Spec example record B: 95 ms over 8 visits. -/
def odB : OriginData := ⟨"b.example", ⟨95, 8⟩⟩

/-- Spec example record for the outside-window case: 90 ms over 5 visits. -/
def odC : OriginData := ⟨"c.example", ⟨90, 5⟩⟩

/-- Two records with equal need ratios and equal visit counts. -/
def odEqOne : OriginData := ⟨"e1.example", ⟨10, 2⟩⟩

/-- Second record with the same visit data as `odEqOne`. -/
def odEqTwo : OriginData := ⟨"e2.example", ⟨10, 2⟩⟩

/-- A record with positive monetized time, for the zero-denominator case. -/
def odPos : OriginData := ⟨"p.example", ⟨100, 4⟩⟩

/-- Aggregate stats whose denominators are all zero. -/
def statsZero : OriginStats := ⟨0, 0, 0, none⟩

/-- Aggregate stats with an empty sent-assets map. -/
def statsEmptyMap : OriginStats := ⟨0, 0, 0, some []⟩

/-- Aggregate stats with a one-entry sent-assets map. -/
def statsOneAsset : OriginStats := ⟨0, 0, 0, some [("a", 1)]⟩

/-- A record with the smaller monetized time, for the mutation counterexample. -/
def odLowTime : OriginData := ⟨"low.example", ⟨1, 1⟩⟩

/-- A record with the larger monetized time, for the mutation counterexample. -/
def odHighTime : OriginData := ⟨"high.example", ⟨2, 1⟩⟩

lemma magicWindowLow : NEEDS_LOVE_MAGIC_NUMBER - NEEDS_LOVE_MAGIC_NUMBER_MARGIN = (3 / 4 : ℚ) := by
  norm_num [NEEDS_LOVE_MAGIC_NUMBER, NEEDS_LOVE_MAGIC_NUMBER_MARGIN]

lemma magicWindowHigh : NEEDS_LOVE_MAGIC_NUMBER = (1 : ℚ) := rfl

lemma jsSub_neg_of_lt {x y : JSNum} (h : JSNum.lt x y = true) :
    JSNum.lt (JSNum.sub x y) (JSNum.num 0) = true := by
  cases x <;> cases y <;> simp_all [JSNum.lt, JSNum.sub]

lemma jsSub_pos_of_lt {x y : JSNum} (h : JSNum.lt y x = true) :
    JSNum.lt (JSNum.num 0) (JSNum.sub x y) = true := by
  cases x <;> cases y <;> simp_all [JSNum.lt, JSNum.sub]

/-- C1: in the needs-love comparator, whenever the quotient of the two need
ratios lies in the closed window `[0.75, 1]`, the record with fewer visits is
ordered first: if `a` has more visits than `b` the comparator returns the
positive value `1` (so `b` is placed before `a`), otherwise it returns the
negative value `-1` (so `a` is placed before `b`). -/
theorem needsLoveComparator_closeWindow (a b : OriginData)
    (hlo : JSNum.le (JSNum.num (3 / 4)) (ratioComparison a b) = true)
    (hhi : JSNum.le (ratioComparison a b) (JSNum.num 1) = true) :
    (b.originVisitData.numberOfVisits < a.originVisitData.numberOfVisits →
      needsLoveComparator a b = JSNum.num 1 ∧
        JSNum.lt (JSNum.num 0) (needsLoveComparator a b) = true) ∧
    (a.originVisitData.numberOfVisits ≤ b.originVisitData.numberOfVisits →
      needsLoveComparator a b = JSNum.num (-1) ∧
        JSNum.lt (needsLoveComparator a b) (JSNum.num 0) = true) := by
  constructor
  · intro hv
    have heq : needsLoveComparator a b = JSNum.num 1 := by
      unfold needsLoveComparator
      rw [magicWindowLow, magicWindowHigh, hlo, hhi]
      simp [hv]
    refine ⟨heq, ?_⟩
    rw [heq]
    with_unfolding_all decide
  · intro hv
    have heq : needsLoveComparator a b = JSNum.num (-1) := by
      unfold needsLoveComparator
      rw [magicWindowLow, magicWindowHigh, hlo, hhi]
      simp [not_lt.mpr hv]
    refine ⟨heq, ?_⟩
    rw [heq]
    with_unfolding_all decide

/-- C1 witness: for A(time=100, visits=10) and B(time=95, visits=8) the ratio
quotient is `10 / 11.875 ≈ 0.842 ∈ [0.75, 1]`, A has more visits, and the
comparator returns the positive value `1`, placing B before A. -/
theorem needsLoveComparator_closeWindow_witness :
    needsLoveComparator odA odB = JSNum.num 1 ∧
      JSNum.lt (JSNum.num 0) (needsLoveComparator odA odB) = true :=
  (needsLoveComparator_closeWindow odA odB (by with_unfolding_all decide)
    (by with_unfolding_all decide)).1 (by with_unfolding_all decide)

/-- C8: in the needs-love comparator, whenever the quotient of the two need
ratios falls outside the window `[0.75, 1]`, the comparator value is the
difference of the need ratios, so ordering is purely by ascending need ratio:
a strictly smaller ratio yields a negative value (that record first) and a
strictly larger ratio a positive value. -/
theorem needsLoveComparator_outsideWindow (a b : OriginData)
    (h : (JSNum.le (JSNum.num (3 / 4)) (ratioComparison a b)
        && JSNum.le (ratioComparison a b) (JSNum.num 1)) = false) :
    needsLoveComparator a b = JSNum.sub (needsLoveRatioOf a) (needsLoveRatioOf b) ∧
    (JSNum.lt (needsLoveRatioOf a) (needsLoveRatioOf b) = true →
      JSNum.lt (needsLoveComparator a b) (JSNum.num 0) = true) ∧
    (JSNum.lt (needsLoveRatioOf b) (needsLoveRatioOf a) = true →
      JSNum.lt (JSNum.num 0) (needsLoveComparator a b) = true) := by
  have heq : needsLoveComparator a b
      = JSNum.sub (needsLoveRatioOf a) (needsLoveRatioOf b) := by
    unfold needsLoveComparator
    rw [magicWindowLow, magicWindowHigh, h]
    simp
  refine ⟨heq, ?_, ?_⟩
  · intro hr
    rw [heq]
    exact jsSub_neg_of_lt hr
  · intro hr
    rw [heq]
    exact jsSub_pos_of_lt hr

/-- C8 witness: for A(time=100, visits=10) with ratio 10 and C(time=90,
visits=5) with ratio 18, the quotient `10 / 18 ≈ 0.56` is outside the window
and the comparator returns the ratio difference `-8 < 0`, placing A before C. -/
theorem needsLoveComparator_outsideWindow_witness :
    needsLoveComparator odA odC = JSNum.sub (needsLoveRatioOf odA) (needsLoveRatioOf odC) ∧
      JSNum.lt (needsLoveComparator odA odC) (JSNum.num 0) = true :=
  ⟨(needsLoveComparator_outsideWindow odA odC (by with_unfolding_all decide)).1,
    (needsLoveComparator_outsideWindow odA odC (by with_unfolding_all decide)).2.1
      (by with_unfolding_all decide)⟩

/-- C10: the needs-love comparator is not antisymmetric: two records with
equal need ratios and equal visit counts both compare negative against each
other (the window condition holds with quotient `1` and neither has more
visits, so both orientations return `-1`), so the comparator does not define
a consistent ordering. -/
theorem needsLoveComparator_not_antisymmetric :
    ∃ a b : OriginData,
      JSNum.lt (needsLoveComparator a b) (JSNum.num 0) = true ∧
        JSNum.lt (needsLoveComparator b a) (JSNum.num 0) = true :=
  ⟨odEqOne, odEqTwo, by with_unfolding_all decide, by with_unfolding_all decide⟩

lemma jsSortRel_timeSpent_iff (a b : OriginData) :
    jsSortRel timeSpentComparator a b ↔
      b.originVisitData.monetizedTimeSpent ≤ a.originVisitData.monetizedTimeSpent := by
  simp [jsSortRel, timeSpentComparator, sortKeep, JSNum.sub, sub_nonpos]

instance : IsTotal OriginData (jsSortRel timeSpentComparator) :=
  ⟨fun a b => by
    rw [jsSortRel_timeSpent_iff, jsSortRel_timeSpent_iff]
    exact le_total _ _⟩

instance : IsTrans OriginData (jsSortRel timeSpentComparator) :=
  ⟨fun a b c hab hbc => by
    rw [jsSortRel_timeSpent_iff] at hab hbc ⊢
    exact le_trans hbc hab⟩

/-- C2: on a fetched list with at least two entries, `getTopOriginsByTimeSpent n`
returns a list sorted in descending order of `originVisitData.monetizedTimeSpent`
whose length is `min n (length of the input list)`. -/
theorem getTopOriginsByTimeSpent_sorted (l : List OriginData) (n : ℕ)
    (h : 2 ≤ l.length) :
    ∃ r, getTopOriginsByTimeSpent n (some l) = some r ∧
      r.Pairwise (fun x y =>
        y.originVisitData.monetizedTimeSpent ≤ x.originVisitData.monetizedTimeSpent) ∧
      r.length = min n l.length := by
  have hlen : 1 < l.length := h
  refine ⟨(jsSort timeSpentComparator l).take (min n l.length), ?_, ?_, ?_⟩
  · simp [getTopOriginsByTimeSpent, getTopOriginsByTimeSpentRun, hlen]
  · have hs : List.Sorted (jsSortRel timeSpentComparator) (jsSort timeSpentComparator l) :=
      List.sorted_insertionSort _ _
    have ht : ((jsSort timeSpentComparator l).take (min n l.length)).Pairwise
        (jsSortRel timeSpentComparator) :=
      List.Pairwise.sublist (List.take_sublist _ _) hs
    exact ht.imp (fun hxy => (jsSortRel_timeSpent_iff _ _).mp hxy)
  · rw [List.length_take, jsSort, List.length_insertionSort]
    omega

/-- C2 witness: on the two-entry list `[B, A]` with times 95 and 100,
`getTopOriginsByTimeSpent 1` returns a descending list of length
`min 1 2 = 1`. -/
theorem getTopOriginsByTimeSpent_sorted_witness :
    2 ≤ ([odB, odA] : List OriginData).length ∧
      ∃ r, getTopOriginsByTimeSpent 1 (some [odB, odA]) = some r ∧
        r.Pairwise (fun x y =>
          y.originVisitData.monetizedTimeSpent ≤ x.originVisitData.monetizedTimeSpent) ∧
        r.length = min 1 ([odB, odA] : List OriginData).length :=
  ⟨by decide, getTopOriginsByTimeSpent_sorted [odB, odA] 1 (by decide)⟩

/-- C3 counterexample: `getTopOriginsByTimeSpent` sorts the fetched array in
place, so after the call the data provider's array `[low, high]` has been
reordered and is no longer equal to the list that was supplied. -/
theorem sortMutatesProviderList :
    listAfterTimeSpentCall 2 (some [odLowTime, odHighTime]) ≠ some [odLowTime, odHighTime] ∧
      listAfterTimeSpentCall 2 (some [odLowTime, odHighTime]) = some [odHighTime, odLowTime] := by
  with_unfolding_all decide

/-- C3 amended: neither calculator call changes, adds or drops any
`OriginData` record — after either call the provider's array holds exactly
the supplied records, as a permutation (reordered in place by `sort`) — and
a `null` list stays untouched; but the order of the provider's array is not
preserved in general. -/
theorem calculatorPreservesRecords (n : ℕ) (l : List OriginData) :
    (∃ l2, listAfterTimeSpentCall n (some l) = some l2 ∧ l2.Perm l) ∧
    (∃ l2, listAfterNeedsLoveCall n (some l) = some l2 ∧ l2.Perm l) ∧
    listAfterTimeSpentCall n none = none ∧
    listAfterNeedsLoveCall n none = none := by
  refine ⟨?_, ?_, rfl, rfl⟩
  · by_cases hlen : 1 < l.length
    · exact ⟨jsSort timeSpentComparator l,
        by simp [listAfterTimeSpentCall, getTopOriginsByTimeSpentRun, hlen],
        List.perm_insertionSort _ _⟩
    · exact ⟨l, by simp [listAfterTimeSpentCall, getTopOriginsByTimeSpentRun, hlen],
        List.Perm.refl l⟩
  · by_cases hlen : 1 < l.length
    · exact ⟨jsSort needsLoveComparator l,
        by simp [listAfterNeedsLoveCall, getTopOriginsThatNeedSomeLoveRun, hlen],
        List.perm_insertionSort _ _⟩
    · exact ⟨l, by simp [listAfterNeedsLoveCall, getTopOriginsThatNeedSomeLoveRun, hlen],
        List.Perm.refl l⟩

/-- C4 counterexample: on an empty fetched list, `getTopOriginsByTimeSpent`
does not return `null` — an empty array is truthy in JavaScript, so the
empty list itself is returned. -/
theorem getTopOriginsByTimeSpent_empty_not_null :
    getTopOriginsByTimeSpent 3 (some ([] : List OriginData)) ≠ none ∧
      getTopOriginsByTimeSpent 3 (some ([] : List OriginData)) = some [] := by
  with_unfolding_all decide

/-- C4 amended: `getTopOriginsByTimeSpent` returns `null` only for a `null`
(unavailable) list; an empty list is returned unchanged (not `null`), and a
single-entry list is returned unchanged. -/
theorem getTopOriginsByTimeSpent_degenerate (n : ℕ) :
    getTopOriginsByTimeSpent n none = none ∧
    getTopOriginsByTimeSpent n (some ([] : List OriginData)) = some [] ∧
    ∀ d : OriginData, getTopOriginsByTimeSpent n (some [d]) = some [d] :=
  ⟨rfl, rfl, fun _ => rfl⟩

/-- C5 counterexample: `getPercentTimeSpentAtOriginOutOfTotal` has no
zero-denominator guard: with positive monetized time and `totalTimeSpent = 0`
it returns the string `"Infinity"`, not `0`. -/
theorem percentTimeSpent_zeroTotal_not_zero :
    getPercentTimeSpentAtOriginOutOfTotal (some odPos) (some statsZero)
        = JSValue.str "Infinity" ∧
      getPercentTimeSpentAtOriginOutOfTotal (some odPos) (some statsZero)
        ≠ JSValue.num (JSNum.num 0) ∧
      getPercentTimeSpentAtOriginOutOfTotal (some odPos) (some statsZero)
        ≠ JSValue.str "0.00" := by
  with_unfolding_all decide

/-- C5 amended: with `totalTimeSpent = 0`, `getPercentTimeSpentAtOriginOutOfTotal`
yields `"Infinity"` for positive monetized time and `"0.00"` (the `NaN` of
`0 / 0` normalized to `0`) only when the monetized time is itself `0`; the
other two helpers do guard their zero denominators and return the number `0`. -/
theorem percentHelpers_zeroDenominators (d : OriginData) (s : OriginStats)
    (ht : s.totalTimeSpent = 0) (hv : s.totalVisits = 0) :
    (0 < d.originVisitData.monetizedTimeSpent →
      getPercentTimeSpentAtOriginOutOfTotal (some d) (some s) = JSValue.str "Infinity") ∧
    (d.originVisitData.monetizedTimeSpent = 0 →
      getPercentTimeSpentAtOriginOutOfTotal (some d) (some s) = JSValue.str "0.00") ∧
    getMonetizedTimeSpentPercent (some s) = JSValue.num (JSNum.num 0) ∧
    getPercentVisitsToOriginOutOfTotal (some d) (some s) = JSValue.num (JSNum.num 0) := by
  refine ⟨?_, ?_, ?_, ?_⟩
  · intro hpos
    have h1 : getPercentTimeSpentAtOriginOutOfTotal (some d) (some s)
        = JSValue.str (toPercent (JSNum.div
            (JSNum.num d.originVisitData.monetizedTimeSpent)
            (JSNum.num s.totalTimeSpent))) := rfl
    have h2 : JSNum.div (JSNum.num d.originVisitData.monetizedTimeSpent)
        (JSNum.num (0 : ℚ)) = JSNum.inf := by
      simp [JSNum.div, hpos]
    rw [h1, ht, h2]
    with_unfolding_all decide
  · intro hzero
    have h1 : getPercentTimeSpentAtOriginOutOfTotal (some d) (some s)
        = JSValue.str (toPercent (JSNum.div
            (JSNum.num d.originVisitData.monetizedTimeSpent)
            (JSNum.num s.totalTimeSpent))) := rfl
    rw [h1, ht, hzero]
    with_unfolding_all decide
  · simp [getMonetizedTimeSpentPercent, ht]
  · simp [getPercentVisitsToOriginOutOfTotal, hv]

/-- C5 witness: at the record with monetized time 100 and the all-zero stats,
the time-percentage helper returns `"Infinity"` while the two guarded helpers
return the number `0`. -/
theorem percentHelpers_zeroDenominators_witness :
    getPercentTimeSpentAtOriginOutOfTotal (some odPos) (some statsZero)
        = JSValue.str "Infinity" ∧
      getMonetizedTimeSpentPercent (some statsZero) = JSValue.num (JSNum.num 0) ∧
      getPercentVisitsToOriginOutOfTotal (some odPos) (some statsZero)
        = JSValue.num (JSNum.num 0) :=
  ⟨(percentHelpers_zeroDenominators odPos statsZero rfl rfl).1 (by with_unfolding_all decide),
    (percentHelpers_zeroDenominators odPos statsZero rfl rfl).2.2.1,
    (percentHelpers_zeroDenominators odPos statsZero rfl rfl).2.2.2⟩

/-- C6 counterexample: when the origin's data is missing,
`getEstimatedPaymentForOriginUSD` returns the untouched initial number `0`,
not the two-decimal string `"0.00"`. -/
theorem paymentForOrigin_missing_is_numeric_zero :
    getEstimatedPaymentForOriginUSD none = JSValue.num (JSNum.num 0) ∧
      getEstimatedPaymentForOriginUSD none ≠ JSValue.str "0.00" := by
  with_unfolding_all decide

/-- C6 amended: `getEstimatedPaymentForOriginUSD` returns the number `0` (not
a formatted string) when the data is missing; otherwise it returns
`monetizedTimeSpent * 0.0000001` formatted to two decimal places (with the
`unNaN` guard normalizing a not-a-number product to `0` before formatting);
for 36 000 000 ms the result is `"3.60"`. -/
theorem paymentForOrigin_spec :
    getEstimatedPaymentForOriginUSD none = JSValue.num (JSNum.num 0) ∧
    (∀ d : OriginData, getEstimatedPaymentForOriginUSD (some d) =
      JSValue.str (jsToFixed2 (JSNum.num
        (d.originVisitData.monetizedTimeSpent * STREAM_RATE_PER_MILLISECOND)))) ∧
    getEstimatedPaymentForOriginUSD (some ⟨"pay.example", ⟨36000000, 1⟩⟩)
      = JSValue.str "3.60" :=
  ⟨rfl, fun _ => rfl, by with_unfolding_all decide⟩

/-- C7: `getEstimatedPaymentForTimeInUSD` is `timeSpent * 0.0000001` formatted
to two decimal places with no not-a-number guard: a `NaN` input (as produced by
a non-numeric `timeSpent` under JavaScript multiplication) yields the string
`"NaN"`, which is not a numeric two-decimal string — whereas the `unNaN` guard
used by `getEstimatedPaymentForOriginUSD` would have produced `"0.00"`. -/
theorem paymentForTime_noNaNGuard :
    (∀ t : JSNum, getEstimatedPaymentForTimeInUSD t
      = jsToFixed2 (JSNum.mul t (JSNum.num STREAM_RATE_PER_MILLISECOND))) ∧
    getEstimatedPaymentForTimeInUSD JSNum.nan = "NaN" ∧
    isTwoDecimalNumericString (getEstimatedPaymentForTimeInUSD JSNum.nan) = false ∧
    jsToFixed2 (unNaN JSNum.nan) = "0.00" ∧
    isTwoDecimalNumericString (jsToFixed2 (unNaN JSNum.nan)) = true := by
  refine ⟨fun _ => rfl, rfl, by decide, by with_unfolding_all decide,
    by with_unfolding_all decide⟩

/-- C9: `hasUsedWebMonetizationProvider` returns `true` exactly when the stats
record exists, its `totalSentAssetsMap` is non-null and the map has at least
one entry; in particular it returns `false` for an empty map and `true` for a
one-entry map. -/
theorem hasUsedWebMonetizationProvider_iff :
    (∀ originStats : Option OriginStats,
      hasUsedWebMonetizationProvider originStats = JSBoolish.jsBool true ↔
        ∃ s m, originStats = some s ∧ s.totalSentAssetsMap = some m ∧ m.length ≠ 0) ∧
    hasUsedWebMonetizationProvider (some statsEmptyMap) = JSBoolish.jsBool false ∧
    hasUsedWebMonetizationProvider (some statsOneAsset) = JSBoolish.jsBool true := by
  refine ⟨?_, by with_unfolding_all decide, by with_unfolding_all decide⟩
  intro stats
  constructor
  · intro h
    cases stats with
    | none => simp [hasUsedWebMonetizationProvider] at h
    | some s =>
      cases hm : s.totalSentAssetsMap with
      | none => simp [hasUsedWebMonetizationProvider, hm] at h
      | some m =>
        simp [hasUsedWebMonetizationProvider, hm] at h
        exact ⟨s, m, rfl, hm, by simpa using h⟩
  · rintro ⟨s, m, rfl, hm, hne⟩
    simp [hasUsedWebMonetizationProvider, hm, hne]

end Akita
